import Mathlib

/-!
Verification of the amazon-ads-analytics reconciliation/analysis pipeline.

Shallow embedding of the Python sources under `src/`:
pandas DataFrames become Lean lists of typed rows (plus an explicit column
list where column presence matters), currency/ratio values become `Rat`,
count columns become `Nat` (the ingest layer coerces them with
`pd.to_numeric(...).fillna(0).astype(int)`), KDP unit columns become `Int`
(net units can be negative in refund periods and nothing in the ingest
forbids it), and nullable cells become `Option`.  Human-readable `message`
strings attached to flags are presentation text and are not modelled; the
structured fields of each flag are.
-/

namespace AdsAnalytics

/-! ### String helpers

`charsHasSub s pat` is Python's `pat in s` substring test; `strLeB` is the
code-point lexicographic order Python's `sorted` uses on strings. -/

def charsStart : List Char → List Char → Bool
  | _, [] => true
  | [], _ :: _ => false
  | c :: cs, p :: ps => c == p && charsStart cs ps

def charsHasSub : List Char → List Char → Bool
  | [], pat => charsStart [] pat
  | s@(_ :: rest), pat => charsStart s pat || charsHasSub rest pat

def strContainsSub (s pat : String) : Bool :=
  charsHasSub s.data pat.data

def charListLe : List Char → List Char → Bool
  | [], _ => true
  | _ :: _, [] => false
  | a :: as, b :: bs =>
    if a < b then true
    else if b < a then false
    else charListLe as bs

def strLeB (a b : String) : Bool :=
  charListLe a.data b.data

def joinSep (sep : String) : List String → String
  | [] => ""
  | [s] => s
  | s :: rest => s ++ sep ++ joinSep sep rest

/-! ### Dates

`pandas` timestamps restricted to what the pipeline uses: calendar dates,
their day-of-month (`.dt.day`, `.dt.is_month_start` is `day == 1` for
date-valued columns), month periods (`.dt.to_period("M")`) and
chronological comparison. -/

structure Date where
  year : Nat
  month : Nat
  day : Nat
  deriving DecidableEq, Repr

def Date.lt (a b : Date) : Bool :=
  a.year < b.year ||
    (a.year == b.year &&
      (a.month < b.month || (a.month == b.month && a.day < b.day)))

def dateLeB (a b : Date) : Bool :=
  !(Date.lt b a)

def Date.sameMonth (a b : Date) : Bool :=
  a.year == b.year && a.month == b.month

/-! ### Stable sorting (pandas sorts group keys; `sorted` sorts lists) -/

def insertSorted {α : Type} (le : α → α → Bool) (x : α) : List α → List α
  | [] => [x]
  | y :: ys => if le x y then x :: y :: ys else y :: insertSorted le x ys

def sortByB {α : Type} (le : α → α → Bool) : List α → List α
  | [] => []
  | x :: xs => insertSorted le x (sortByB le xs)

/-! ### Keep-first deduplication

`pandas.DataFrame.drop_duplicates(subset=key_cols, keep="first")`: keep the
first row carrying each key, in order.  `dropDupsBy` threads the set of keys
already seen. -/

def dropDupsBy {α κ : Type} [DecidableEq κ] (key : α → κ) : List κ → List α → List α
  | _, [] => []
  | seen, x :: xs =>
    if key x ∈ seen then dropDupsBy key seen xs
    else x :: dropDupsBy key (key x :: seen) xs

def dropDuplicatesBy {α κ : Type} [DecidableEq κ] (key : α → κ) (xs : List α) : List α :=
  dropDupsBy key [] xs

def seenAfter {α κ : Type} [DecidableEq κ] (key : α → κ) : List κ → List α → List κ
  | seen, [] => seen
  | seen, x :: xs =>
    seenAfter key (if key x ∈ seen then seen else key x :: seen) xs

/-! ### Canonical search-term rows

`src/ingest/search_terms.py::load_search_term_report` output: one row per
(campaign, targeting, search term, date range) with coerced numeric
columns.  `start_date`/`end_date` are `NaT` (`none`) when unparseable. -/

structure SearchTermRow where
  campaign_name : String
  targeting : String
  targeting_raw : String
  match_type : String
  search_term : String
  impressions : Nat
  clicks : Nat
  spend : Rat
  sales : Rat
  orders : Nat
  start_date : Option Date
  end_date : Option Date
  deriving DecidableEq

/-! ### Deduplication (`analyze.py::report`, lines 84-94)

`dedup_cols` is `(campaign_name, targeting, search_term)` plus
`start_date`/`end_date` whenever those columns are present in the
concatenated frame; `drop_duplicates(subset=dedup_cols, keep="first")`. -/

def dedupKey (hasStart hasEnd : Bool) (r : SearchTermRow) :
    String × String × String × Option Date × Option Date :=
  (r.campaign_name, r.targeting, r.search_term,
   if hasStart then r.start_date else none,
   if hasEnd then r.end_date else none)

def dedupSearchTerms (hasStart hasEnd : Bool) (rows : List SearchTermRow) :
    List SearchTermRow :=
  dropDuplicatesBy (dedupKey hasStart hasEnd) rows

/-! ### Targeting builder
(`src/ingest/targeting.py::build_targeting_from_search_terms`, lines 125-163)

Empty input returns `pd.DataFrame()` — a frame with no columns at all —
so the output carries an explicit column list.  `groupby` sorts its keys
lexicographically. -/

structure TargetAggregate where
  campaign_name : String
  targeting : String
  impressions : Nat
  clicks : Nat
  spend : Rat
  sales : Rat
  orders : Nat
  ctr : Rat
  cpc : Rat
  acos : Option Rat
  targeting_raw : String
  bid : Option Rat
  deriving DecidableEq

structure TargetingFrame where
  cols : List String
  rows : List TargetAggregate
  deriving DecidableEq

def targetingCols : List String :=
  ["campaign_name", "targeting", "impressions", "clicks", "spend", "sales",
   "orders", "ctr", "cpc", "acos", "targeting_raw"]

def stKey (r : SearchTermRow) : String × String :=
  (r.campaign_name, r.targeting)

def keyLeB (a b : String × String) : Bool :=
  if a.1 == b.1 then strLeB a.2 b.2 else strLeB a.1 b.1

def mkTargetAggregate (rows : List SearchTermRow) (k : String × String) :
    TargetAggregate :=
  let group := rows.filter (fun r => stKey r == k)
  let imps : Nat := (group.map (fun r => r.impressions)).sum
  let clicks : Nat := (group.map (fun r => r.clicks)).sum
  let spend : Rat := (group.map (fun r => r.spend)).sum
  let sales : Rat := (group.map (fun r => r.sales)).sum
  let orders : Nat := (group.map (fun r => r.orders)).sum
  { campaign_name := k.1
    targeting := k.2
    impressions := imps
    clicks := clicks
    spend := spend
    sales := sales
    orders := orders
    ctr := if imps > 0 then (clicks : Rat) / (imps : Rat) else 0
    cpc := if clicks > 0 then spend / (clicks : Rat) else 0
    acos := if sales > 0 then some (spend / sales) else none
    targeting_raw := k.2
    bid := none }

def build_targeting_from_search_terms (rows : List SearchTermRow) : TargetingFrame :=
  if rows.isEmpty then ⟨[], []⟩
  else
    let keys := sortByB keyLeB (dropDuplicatesBy id (rows.map stKey))
    ⟨targetingCols, keys.map (mkTargetAggregate rows)⟩

/-! ### Group-sum conservation machinery -/

/-! ### Configuration (`config/campaigns.yaml` as consumed by the modules)

Optional settings mirror Python's `dict.get(key, default)`: `none` means the
key is unset and the default applies. -/

structure Settings where
  target_acos : Option Rat
  blended_royalty : Option Rat
  high_spend_flag : Option Rat
  low_impressions_flag : Option Nat
  exact_match_transition_date : Option String
  deriving DecidableEq

structure TargetCfg where
  asin : String
  title : Option String
  bid : Option Rat
  deriving DecidableEq

structure Campaign where
  name : String
  ctype : String
  targets : List TargetCfg
  deriving DecidableEq

structure Book where
  asin_kindle : String
  asin_paperback : String
  short_title : String
  deriving DecidableEq

structure Config where
  settings : Settings
  campaigns : List (String × Campaign)
  books : List (String × Book)
  deriving DecidableEq

/-! ### Campaign summary
(`src/analysis/campaign_summary.py::generate_campaign_summary`)

`targeting_df.groupby("campaign_name")` raises `KeyError` when the frame
lacks that column (which is exactly what `pd.DataFrame()` from the builder's
empty branch gives it), hence the `Except`.  The optional prior-week
week-over-week delta branch (source lines 52-64) is not modelled: no claim
touches it and in every claim context `prior_week_df` is `None`. -/

structure CampaignAggregate where
  campaign_name : String
  impressions : Nat
  clicks : Nat
  spend : Rat
  sales : Rat
  orders : Nat
  ctr : Rat
  avg_cpc : Rat
  acos : Option Rat
  roas : Option Rat
  deriving DecidableEq

structure CampaignSummary where
  table : List CampaignAggregate
  wow_available : Bool
  deriving DecidableEq

def summaryCols : List String :=
  ["campaign_name", "impressions", "clicks", "spend", "sales", "orders"]

def mkCampaignAggregate (rows : List TargetAggregate) (c : String) :
    CampaignAggregate :=
  let group := rows.filter (fun r => r.campaign_name == c)
  let imps : Nat := (group.map (fun r => r.impressions)).sum
  let clicks : Nat := (group.map (fun r => r.clicks)).sum
  let spend : Rat := (group.map (fun r => r.spend)).sum
  let sales : Rat := (group.map (fun r => r.sales)).sum
  let orders : Nat := (group.map (fun r => r.orders)).sum
  { campaign_name := c
    impressions := imps
    clicks := clicks
    spend := spend
    sales := sales
    orders := orders
    ctr := if imps > 0 then (clicks : Rat) / (imps : Rat) else 0
    avg_cpc := if clicks > 0 then spend / (clicks : Rat) else 0
    acos := if sales > 0 then some (spend / sales) else none
    roas := if spend > 0 then some (sales / spend) else none }

def generate_campaign_summary (t : TargetingFrame) : Except String CampaignSummary :=
  if summaryCols.all (fun col => t.cols.contains col) then
    let names := sortByB strLeB (dropDuplicatesBy id (t.rows.map (fun r => r.campaign_name)))
    Except.ok { table := names.map (mkCampaignAggregate t.rows), wow_available := false }
  else
    Except.error ("KeyError: campaign_name")

/-! ### Search-term drift detector
(`src/analysis/search_terms.py::analyze_search_terms`) -/

inductive Severity
  | warning
  | info
  deriving DecidableEq

structure DriftFlag where
  dtype : String
  severity : Severity
  campaign : String
  targeting : String
  search_term : String
  impressions : Nat
  spend : Rat
  deriving DecidableEq

def driftFlagsForRow (r : SearchTermRow) : List DriftFlag :=
  let targeting := r.targeting.trim
  let search_term := r.search_term.trim
  let match_type := r.match_type.trim.toLower
  let campaign := r.campaign_name
  let exactFlags : List DriftFlag :=
    if match_type == ("exact") && targeting != search_term then
      [{ dtype := ("exact_match_drift"), severity := Severity.warning,
         campaign := campaign, targeting := targeting, search_term := search_term,
         impressions := r.impressions, spend := r.spend }]
    else []
  let broadFlags : List DriftFlag :=
    if match_type == ("broad")
        && !(strContainsSub search_term.toLower targeting.toLower)
        && decide (r.spend > (1 : Rat) / 2) then
      [{ dtype := ("broad_match_expansion"), severity := Severity.info,
         campaign := campaign, targeting := targeting, search_term := search_term,
         impressions := r.impressions, spend := r.spend }]
    else []
  exactFlags ++ broadFlags

structure STSummaryRow where
  search_term : String
  impressions : Nat
  clicks : Nat
  spend : Rat
  orders : Nat
  deriving DecidableEq

structure SearchTermAnalysis where
  grouped : List (String × List SearchTermRow)
  drift_flags : List DriftFlag
  summary : List STSummaryRow
  transition_note : Option String
  deriving DecidableEq

def analyze_search_terms (cfg : Config) (rows : List SearchTermRow) :
    SearchTermAnalysis :=
  if rows.isEmpty then ⟨[], [], [], none⟩
  else
    let drift := (rows.map driftFlagsForRow).flatten
    let targetKeys := sortByB strLeB (dropDuplicatesBy id (rows.map (fun r => r.targeting)))
    let grouped := targetKeys.map (fun t =>
      (t, sortByB (fun a b => decide (b.impressions ≤ a.impressions))
            (rows.filter (fun r => r.targeting == t))))
    let termKeys := sortByB strLeB (dropDuplicatesBy id (rows.map (fun r => r.search_term)))
    let summaryRows := termKeys.map (fun s =>
      let g := rows.filter (fun r => r.search_term == s)
      ({ search_term := s
         impressions := (g.map (fun r => r.impressions)).sum
         clicks := (g.map (fun r => r.clicks)).sum
         spend := (g.map (fun r => r.spend)).sum
         orders := (g.map (fun r => r.orders)).sum } : STSummaryRow))
    let summarySorted := sortByB (fun a b => decide (b.spend ≤ a.spend)) summaryRows
    let note :=
      match cfg.settings.exact_match_transition_date with
      | some d =>
          some (("Note: Switched from expanded to exact ASIN matching on ") ++ d
            ++ (". Drift before this date may reflect expanded match behavior."))
      | none => some ("")
    ⟨grouped, drift, summarySorted, note⟩

/-! ### Bid recommender
(`src/analysis/bid_recommendations.py::recommend_bids`)

`target_acos` falls back to 0.50 when unset and again when `≤ 0`;
`blended_royalty` falls back to 5.00 only when unset — the source has no
`≤ 0` guard for it. -/

def effTargetAcos (cfg : Config) : Rat :=
  let t := (cfg.settings.target_acos).getD ((1 : Rat) / 2)
  if t ≤ 0 then (1 : Rat) / 2 else t

def effBlendedRoyalty (cfg : Config) : Rat :=
  (cfg.settings.blended_royalty).getD 5

def conversionRate (clicks orders : Nat) : Rat :=
  if clicks > 0 then (orders : Rat) / (clicks : Rat) else 0

def maxProfitableBid (cfg : Config) (r : TargetAggregate) : Option Rat :=
  let cr := conversionRate r.clicks r.orders
  if cr > 0 then some (effBlendedRoyalty cfg * cr / effTargetAcos cfg) else none

structure BidFlag where
  btype : String
  severity : Severity
  target : String
  campaign : String
  current_bid : Option Rat
  recommended_bid : Option Rat
  deriving DecidableEq

def bidFlagsForRow (cfg : Config) (r : TargetAggregate) : List BidFlag :=
  let current_bid := r.bid
  let max_bid := maxProfitableBid cfg r
  if r.clicks == 0 then
    if r.impressions == 0 then
      [{ btype := ("no_data"), severity := Severity.info, target := r.targeting,
         campaign := r.campaign_name, current_bid := current_bid,
         recommended_bid := none }]
    else []
  else if r.orders == 0 then
    [{ btype := ("no_conversions"), severity := Severity.info, target := r.targeting,
       campaign := r.campaign_name, current_bid := current_bid,
       recommended_bid := none }]
  else
    match current_bid, max_bid with
    | some cb, some mb =>
      if cb > mb then
        [{ btype := ("bid_above_profitable"), severity := Severity.warning,
           target := r.targeting, campaign := r.campaign_name,
           current_bid := some cb, recommended_bid := some mb }]
      else if cb < mb * ((1 : Rat) / 2) then
        [{ btype := ("bid_below_range"), severity := Severity.info,
           target := r.targeting, campaign := r.campaign_name,
           current_bid := some cb, recommended_bid := some mb }]
      else []
    | _, _ => []

structure BidRecRow where
  campaign_name : String
  targeting : String
  impressions : Nat
  clicks : Nat
  orders : Nat
  spend : Rat
  conversion_rate : Rat
  current_bid : Option Rat
  max_profitable_bid : Option Rat
  deriving DecidableEq

structure BidRecommendations where
  table : List BidRecRow
  flags : List BidFlag
  deriving DecidableEq

def recommend_bids (cfg : Config) (t : TargetingFrame) : BidRecommendations :=
  if t.rows.isEmpty then ⟨[], []⟩
  else
    let flags := (t.rows.map (bidFlagsForRow cfg)).flatten
    let table := t.rows.map (fun r =>
      ({ campaign_name := r.campaign_name
         targeting := r.targeting
         impressions := r.impressions
         clicks := r.clicks
         orders := r.orders
         spend := r.spend
         conversion_rate := conversionRate r.clicks r.orders
         current_bid := r.bid
         max_profitable_bid := maxProfitableBid cfg r } : BidRecRow))
    ⟨sortByB (fun a b => decide (b.spend ≤ a.spend)) table, flags⟩

/-! ### ASIN target performance
(`src/analysis/asin_performance.py::analyze_asin_targets`)

`target_lookup` is a Python dict built in iteration order: first-insertion
key order, last-written value per key. -/

structure AsinPerfFlag where
  ftype : String
  severity : Severity
  target : String
  title : String
  deriving DecidableEq

structure ZeroActivityTarget where
  asin : String
  title : String
  bid : Option Rat
  deriving DecidableEq

structure AsinPerfRow where
  base : TargetAggregate
  target_title : String
  config_bid : Option Rat
  conversion_rate : Rat
  deriving DecidableEq

structure AsinPerformance where
  table : List AsinPerfRow
  flags : List AsinPerfFlag
  zero_activity_targets : List ZeroActivityTarget
  deriving DecidableEq

def asinLookupPairs (cfg : Config) : List (String × (String × Option Rat)) :=
  (cfg.campaigns.map (fun kc =>
    if kc.2.ctype == ("product_targeting") then
      kc.2.targets.map (fun tg => (tg.asin, (tg.title.getD (""), tg.bid)))
    else [])).flatten

def dictLookup {β : Type} (pairs : List (String × β)) (a : String) : Option β :=
  (pairs.reverse.find? (fun p => p.1 == a)).map (fun p => p.2)

def analyze_asin_targets (cfg : Config) (t : TargetingFrame) : AsinPerformance :=
  if t.rows.isEmpty || !(t.cols.contains ("campaign_name")) then ⟨[], [], []⟩
  else
    let highSpend := (cfg.settings.high_spend_flag).getD 5
    let lowImps := (cfg.settings.low_impressions_flag).getD 10
    let asinCampaignNames := (cfg.campaigns.map (fun kc =>
      if kc.2.ctype == ("product_targeting") then [kc.2.name] else [])).flatten
    let rows := t.rows.filter (fun r => asinCampaignNames.contains r.campaign_name)
    let pairs := asinLookupPairs cfg
    let enriched := rows.map (fun r =>
      ({ base := r
         target_title := ((dictLookup pairs r.targeting).map (fun i => i.1)).getD ("")
         config_bid := (dictLookup pairs r.targeting).bind (fun i => i.2)
         conversion_rate := conversionRate r.clicks r.orders } : AsinPerfRow))
    let sorted := sortByB (fun a b => decide (b.base.spend ≤ a.base.spend)) enriched
    let rowFlags := (sorted.map (fun row =>
      let title := if row.target_title == ("") then row.base.targeting
                   else row.target_title
      (if decide (row.base.spend > highSpend) && (row.base.orders == 0) then
        [({ ftype := ("high_spend_no_orders"), severity := Severity.warning,
            target := row.base.targeting, title := title } : AsinPerfFlag)]
       else []) ++
      (if row.base.impressions < lowImps then
        [({ ftype := ("underserving"), severity := Severity.info,
            target := row.base.targeting, title := title } : AsinPerfFlag)]
       else []))).flatten
    let activeAsins := sorted.map (fun row => row.base.targeting)
    let keyOrder := dropDuplicatesBy id (pairs.map (fun p => p.1))
    let zeroPairs := (keyOrder.map (fun asin =>
      if activeAsins.contains asin then []
      else
        match dictLookup pairs asin with
        | some info => [(asin, info)]
        | none => [])).flatten
    let zeroTargets := zeroPairs.map (fun p =>
      ({ asin := p.1, title := p.2.1, bid := p.2.2 } : ZeroActivityTarget))
    let zeroFlags := zeroPairs.map (fun p =>
      ({ ftype := ("zero_activity"), severity := Severity.info, target := p.1,
         title := if p.2.1 == ("") then p.1 else p.2.1 } : AsinPerfFlag))
    ⟨sorted, rowFlags ++ zeroFlags, zeroTargets⟩

/-! ### Keyword performance
(`src/analysis/keyword_performance.py::analyze_keywords`) -/

structure KeywordPerfFlag where
  ftype : String
  severity : Severity
  target : String
  deriving DecidableEq

structure KeywordPerfRow where
  base : TargetAggregate
  conversion_rate : Rat
  deriving DecidableEq

structure KeywordPerformance where
  table : List KeywordPerfRow
  flags : List KeywordPerfFlag
  deriving DecidableEq

def analyze_keywords (cfg : Config) (t : TargetingFrame) : KeywordPerformance :=
  if t.rows.isEmpty || !(t.cols.contains ("campaign_name")) then ⟨[], []⟩
  else
    let highSpend := (cfg.settings.high_spend_flag).getD 5
    let kwCampaignNames := (cfg.campaigns.map (fun kc =>
      if kc.2.ctype == ("keyword_targeting") then [kc.2.name] else [])).flatten
    let rows := t.rows.filter (fun r => kwCampaignNames.contains r.campaign_name)
    if rows.isEmpty then ⟨[], []⟩
    else
      let enriched := rows.map (fun r =>
        ({ base := r, conversion_rate := conversionRate r.clicks r.orders } :
          KeywordPerfRow))
      let sorted := sortByB
        (fun a b => decide (b.base.impressions ≤ a.base.impressions)) enriched
      let flags := (sorted.map (fun row =>
        (if row.base.impressions == 0 then
          [({ ftype := ("zero_impressions"), severity := Severity.info,
              target := row.base.targeting } : KeywordPerfFlag)]
         else []) ++
        (if decide (row.base.spend > highSpend) && (row.base.orders == 0) then
          [({ ftype := ("high_spend_no_orders"), severity := Severity.warning,
              target := row.base.targeting } : KeywordPerfFlag)]
         else []))).flatten
      ⟨sorted, flags⟩

/-! ### KDP data model
(`src/ingest/kdp.py::load_kdp_report` / `load_kdp_orders` outputs)

The loaded royalty table always carries `date`/`title`/`format`/`royalty`
columns; whether the `net_units_sold` column is present is a property of the
whole frame (`units_col` selection in the reconciliation engine), hence the
frame-level flag.  Unit columns are `Int`: `Net Units Sold` is negative in
periods where refunds exceed sales and the ingest coercion keeps the sign. -/

structure KdpSaleRow where
  date : Option Date
  title : String
  asin : String
  format : String
  units_sold : Int
  net_units_sold : Int
  royalty : Rat
  deriving DecidableEq

structure KdpFrame where
  rows : List KdpSaleRow
  hasNetUnitsCol : Bool
  deriving DecidableEq

def unitsOf (f : KdpFrame) (r : KdpSaleRow) : Int :=
  if f.hasNetUnitsCol then r.net_units_sold else r.units_sold

structure KdpOrderRow where
  date : Option Date
  title : String
  asin : String
  format : String
  paid_units : Nat
  free_units : Nat
  deriving DecidableEq

/-! ### Paired-purchase detection
(`src/analysis/kdp_reconciliation.py::_detect_paired_purchases`,
lines 210-280)

The daily mask keeps rows whose day-of-month is not 1; when NO row has a
day other than 1 the source resets the mask to all-True ("they might still
be daily") and detection proceeds over every row. -/

def bookAsins (b : Book) : List String :=
  [b.asin_kindle, b.asin_paperback].filter (fun a => a != (""))

def isBook1Entry (key : String) (b : Book) : Bool :=
  strContainsSub key ("book_1") || strContainsSub b.short_title ("Book 1")

def isBook2Entry (key : String) (b : Book) : Bool :=
  !isBook1Entry key b
    && (strContainsSub key ("book_2") || strContainsSub b.short_title ("Book 2"))

def book1Asins (cfg : Config) : List String :=
  (cfg.books.map (fun kb =>
    if isBook1Entry kb.1 kb.2 then bookAsins kb.2 else [])).flatten

def book2Asins (cfg : Config) : List String :=
  (cfg.books.map (fun kb =>
    if isBook2Entry kb.1 kb.2 then bookAsins kb.2 else [])).flatten

structure PairedPurchase where
  date : Date
  details : String
  deriving DecidableEq

def detailParts (group : List KdpOrderRow) (b1 b2 : List String) : List String :=
  let titles := dropDuplicatesBy (fun r => (r.asin, r.title)) group
  (titles.map (fun r =>
    if b1.contains r.asin then [("Book 1: ") ++ r.title]
    else if b2.contains r.asin then [("Book 2: ") ++ r.title]
    else [])).flatten

def pairedForDate (rows : List KdpOrderRow) (b1 b2 : List String) (d : Date) :
    List PairedPurchase :=
  let group := rows.filter (fun r => r.date == some d)
  let asins := group.map (fun r => r.asin)
  if asins.any (fun a => b1.contains a) && asins.any (fun a => b2.contains a) then
    [{ date := d, details := joinSep (" + ") (sortByB strLeB (detailParts group b1 b2)) }]
  else []

def detect_paired_purchases (orders : Option (List KdpOrderRow))
    (cfg : Option Config) : List PairedPurchase :=
  match orders, cfg with
  | none, _ => []
  | some _, none => []
  | some rows, some c =>
    if rows.isEmpty then []
    else
      let b1 := book1Asins c
      let b2 := book2Asins c
      if b1.isEmpty || b2.isEmpty then []
      else
        let withDates := rows.filter (fun r => r.date.isSome)
        if withDates.isEmpty then []
        else
          let kept :=
            if withDates.all (fun r =>
                match r.date with
                | some d => d.day == 1
                | none => true) then
              withDates
            else
              withDates.filter (fun r =>
                match r.date with
                | some d => d.day != 1
                | none => false)
          if kept.isEmpty then []
          else
            let ds := sortByB dateLeB
              (dropDuplicatesBy id (kept.filterMap (fun r => r.date)))
            let paired := (ds.map (pairedForDate kept b1 b2)).flatten
            sortByB (fun p q => dateLeB p.date q.date) paired

/-! ### Reconciliation engine
(`src/analysis/kdp_reconciliation.py::reconcile_kdp_sales`)

Modelled through the attribution-gap totals, the granularity decision and
the paired-purchase list.  The per-title / per-format / daily breakdown
tables and the `_estimate_ad_influenced` branch (independent groupby-sums
over the same rows) are outside every claim and not modelled.  An empty
royalty frame short-circuits to the all-zero result before anything else is
read. -/

structure ReconTotals where
  kdp_units : Int
  kdp_royalty : Rat
  ad_attributed_orders : Nat
  ad_attributed_sales : Rat
  attribution_gap : Int
  attribution_gap_pct : Rat
  deriving DecidableEq

structure ReconResult where
  granularity : String
  totals : ReconTotals
  paired_purchases : List PairedPurchase
  deriving DecidableEq

def weekFilter (rows : List KdpSaleRow) (ws we : Date) :
    List KdpSaleRow × Bool :=
  let dates := rows.filterMap (fun r => r.date)
  if !dates.isEmpty && dates.all (fun d => d.day == 1) then
    (rows.filter (fun r =>
      match r.date with
      | some d => d.sameMonth ws || d.sameMonth we
      | none => false), true)
  else
    (rows.filter (fun r =>
      match r.date with
      | some d => dateLeB ws d && dateLeB d we
      | none => false), false)

def reconcile_kdp_sales (kdp : KdpFrame) (summary : List CampaignAggregate)
    (ws we : Date) (orders : Option (List KdpOrderRow)) (cfg : Option Config) :
    ReconResult :=
  if kdp.rows.isEmpty then
    ⟨("daily"), ⟨0, 0, 0, 0, 0, 0⟩, []⟩
  else
    let wf := weekFilter kdp.rows ws we
    let df := wf.1
    let totalKdpUnits : Int := (df.map (unitsOf kdp)).sum
    let totalKdpRoyalty : Rat := (df.map (fun r => r.royalty)).sum
    let totalAdOrders : Nat := (summary.map (fun r => r.orders)).sum
    let totalAdSales : Rat := (summary.map (fun r => r.sales)).sum
    let gap : Int := totalKdpUnits - (totalAdOrders : Int)
    let gapPct : Rat :=
      if totalKdpUnits > 0 then (gap : Rat) / (totalKdpUnits : Rat) * 100 else 0
    ⟨if wf.2 then ("monthly") else ("daily"),
     ⟨totalKdpUnits, totalKdpRoyalty, totalAdOrders, totalAdSales, gap, gapPct⟩,
     detect_paired_purchases orders cfg⟩

/-! ### Search-term CSV header detection
(`src/ingest/search_terms.py::_find_header_row` / `load_search_term_report`)

`_find_header_row` scans the first 10 lines for the marker column name and
returns the index of the first line containing it — and returns 0, not an
error, when no line matches; `load_search_term_report` then calls
`pd.read_csv(filepath, skiprows=header_row)`, so the line at the returned
index is parsed as the header.  `pd.read_csv`'s own failure modes here:
a file with no lines at all raises `EmptyDataError`, and the default C
parser raises `ParserError` (`Expected N fields in line L, saw M`) when a
later line carries more comma-separated fields than the header line sets;
a line with fewer fields is NaN-padded and still parses.  (Pandas's
implicit-index inference, which can rescue a file whose data rows all carry
the same surplus of fields over the header, is not modelled; the theorems
below only instantiate uniform-width files, where no such inference
occurs.)  The downstream column renaming/coercion applies to the parsed
cell matrix and is outside the header-detection claim. -/

def CSV_HEADER_MARKER : String := "Campaign Name"

def splitCommaAux : List Char → List Char → List (List Char)
  | [], acc => [acc.reverse]
  | c :: cs, acc =>
    if c == ',' then acc.reverse :: splitCommaAux cs []
    else splitCommaAux cs (c :: acc)

def splitComma (s : String) : List String :=
  (splitCommaAux s.data []).map (fun cs => String.mk cs)

def findHeaderRowAux : List String → Nat → Nat
  | [], _ => 0
  | l :: ls, i =>
    if 10 ≤ i then 0
    else if strContainsSub l CSV_HEADER_MARKER then i
    else findHeaderRowAux ls (i + 1)

def find_header_row (lines : List String) : Nat :=
  findHeaderRowAux lines 0

structure ParsedCsv where
  header : List String
  datarows : List (List String)
  deriving DecidableEq

def load_search_term_csv (lines : List String) : Except String ParsedCsv :=
  let h := find_header_row lines
  match lines.drop h with
  | [] => Except.error ("EmptyDataError: no columns to parse from file")
  | hdr :: rest =>
      if rest.any (fun l =>
          decide ((splitComma l).length > (splitComma hdr).length)) then
        Except.error ("ParserError: expected fields exceeded")
      else
        Except.ok ⟨splitComma hdr, rest.map (fun l => splitComma l)⟩

/-! ### Library lemmas about the helpers -/

theorem perm_insertSorted {α : Type} (le : α → α → Bool) (x : α) :
    ∀ l : List α, List.Perm (insertSorted le x l) (x :: l) := by
  intro l
  induction l with
  | nil => simp [insertSorted]
  | cons y ys ih =>
    simp only [insertSorted]
    by_cases h : le x y = true
    · simp [h]
    · simp only [h, if_neg]
      exact (ih.cons y).trans (List.Perm.swap x y ys)

theorem mem_insertSorted {α : Type} (le : α → α → Bool) (x a : α) :
    ∀ l : List α, a ∈ insertSorted le x l ↔ a = x ∨ a ∈ l := by
  intro l
  induction l with
  | nil => simp [insertSorted]
  | cons y ys ih =>
    simp only [insertSorted]
    by_cases h : le x y = true
    · simp [h, List.mem_cons]
    · simp [h, List.mem_cons, ih]
      tauto

theorem mem_sortByB {α : Type} (le : α → α → Bool) (a : α) :
    ∀ l : List α, a ∈ sortByB le l ↔ a ∈ l := by
  intro l
  induction l with
  | nil => simp [sortByB]
  | cons x xs ih =>
    simp [sortByB, mem_insertSorted, List.mem_cons, ih]

theorem dropDupsBy_append {α κ : Type} [DecidableEq κ] (key : α → κ) :
    ∀ (xs ys : List α) (seen : List κ),
      dropDupsBy key seen (xs ++ ys)
        = dropDupsBy key seen xs ++ dropDupsBy key (seenAfter key seen xs) ys := by
  intro xs
  induction xs with
  | nil => intro ys seen; simp [dropDupsBy, seenAfter]
  | cons x xs ih =>
    intro ys seen
    simp only [List.cons_append, dropDupsBy, seenAfter]
    by_cases h : key x ∈ seen
    · simp [h, ih]
    · simp [h, ih]

theorem mem_seenAfter {α κ : Type} [DecidableEq κ] (key : α → κ) (k : κ) :
    ∀ (xs : List α) (seen : List κ),
      k ∈ seenAfter key seen xs ↔ k ∈ seen ∨ k ∈ xs.map key := by
  intro xs
  induction xs with
  | nil => intro seen; simp [seenAfter]
  | cons x xs ih =>
    intro seen
    simp only [seenAfter, List.map_cons, List.mem_cons]
    by_cases h : key x ∈ seen
    · rw [if_pos h, ih]
      constructor
      · tauto
      · rintro (hk | hk | hk)
        · exact Or.inl hk
        · exact Or.inl (hk ▸ h)
        · exact Or.inr hk
    · rw [if_neg h, ih]
      simp only [List.mem_cons]
      tauto

theorem dropDupsBy_eq_nil {α κ : Type} [DecidableEq κ] (key : α → κ) :
    ∀ (ys : List α) (seen : List κ), (∀ y ∈ ys, key y ∈ seen) →
      dropDupsBy key seen ys = [] := by
  intro ys
  induction ys with
  | nil => intro seen _; simp [dropDupsBy]
  | cons y ys ih =>
    intro seen h
    have hy : key y ∈ seen := h y (List.mem_cons_self y ys)
    simp only [dropDupsBy, if_pos hy]
    exact ih seen fun z hz => h z (List.mem_cons_of_mem y hz)

theorem dropDuplicatesBy_self_append {α κ : Type} [DecidableEq κ] (key : α → κ)
    (xs : List α) :
    dropDuplicatesBy key (xs ++ xs) = dropDuplicatesBy key xs := by
  unfold dropDuplicatesBy
  rw [dropDupsBy_append]
  have h : dropDupsBy key (seenAfter key [] xs) xs = [] := by
    apply dropDupsBy_eq_nil
    intro y hy
    rw [mem_seenAfter]
    exact Or.inr (List.mem_map_of_mem key hy)
  rw [h, List.append_nil]

theorem mem_dropDupsBy_id {κ : Type} [DecidableEq κ] (k : κ) :
    ∀ (xs : List κ) (seen : List κ),
      k ∈ dropDupsBy id seen xs ↔ k ∈ xs ∧ k ∉ seen := by
  intro xs
  induction xs with
  | nil => intro seen; simp [dropDupsBy]
  | cons x xs ih =>
    intro seen
    simp only [dropDupsBy, id]
    by_cases h : x ∈ seen
    · rw [if_pos h, ih]
      simp only [List.mem_cons]
      constructor
      · tauto
      · rintro ⟨hk | hk, hks⟩
        · exact absurd (hk ▸ h) hks
        · exact ⟨hk, hks⟩
    · rw [if_neg h]
      simp only [List.mem_cons, ih, List.mem_cons]
      constructor
      · rintro (hk | ⟨hk, hks⟩)
        · exact ⟨Or.inl hk, hk ▸ h⟩
        · exact ⟨Or.inr hk, fun hs => hks (Or.inr hs)⟩
      · rintro ⟨hk | hk, hks⟩
        · exact Or.inl hk
        · by_cases hkx : k = x
          · exact Or.inl hkx
          · exact Or.inr ⟨hk, fun hs => (hs.elim hkx hks)⟩

theorem nodup_dropDupsBy_id {κ : Type} [DecidableEq κ] :
    ∀ (xs : List κ) (seen : List κ), (dropDupsBy id seen xs).Nodup := by
  intro xs
  induction xs with
  | nil => intro seen; simp [dropDupsBy]
  | cons x xs ih =>
    intro seen
    simp only [dropDupsBy, id]
    by_cases h : x ∈ seen
    · rw [if_pos h]; exact ih seen
    · rw [if_neg h]
      refine List.nodup_cons.mpr ⟨?_, ih (x :: seen)⟩
      intro hx
      rcases (mem_dropDupsBy_id x xs (x :: seen)).mp hx with ⟨_, hns⟩
      exact hns (List.mem_cons_self x seen)

theorem sum_filter_or {α M : Type} [AddCommMonoid M] (p q : α → Bool) (f : α → M)
    (hdisj : ∀ a, p a = true → q a = true → False) :
    ∀ l : List α,
      ((l.filter (fun a => p a || q a)).map f).sum
        = ((l.filter p).map f).sum + ((l.filter q).map f).sum := by
  intro l
  induction l with
  | nil => simp
  | cons a l ih =>
    by_cases hp : p a = true
    · have hq : q a = false := by
        cases hq : q a with
        | false => rfl
        | true => exact absurd (hdisj a hp hq) (fun h => h)
      simp [List.filter_cons, hp, hq, ih, add_assoc]
    · have hp' : p a = false := by simpa using hp
      cases hq : q a with
      | false => simp [List.filter_cons, hp', hq, ih]
      | true =>
        simp [List.filter_cons, hp', hq, ih]
        rw [add_left_comm]

theorem sum_groups {M : Type} [AddCommMonoid M] (f : SearchTermRow → M) :
    ∀ (ks : List (String × String)), ks.Nodup → ∀ rows : List SearchTermRow,
      ((ks.map (fun k => ((rows.filter (fun r => stKey r == k)).map f).sum)).sum : M)
        = ((rows.filter (fun r => decide (stKey r ∈ ks))).map f).sum := by
  intro ks
  induction ks with
  | nil => intro _ rows; simp
  | cons k ks ih =>
    intro hnd rows
    have hk : k ∉ ks := (List.nodup_cons.mp hnd).1
    have hnd' : ks.Nodup := (List.nodup_cons.mp hnd).2
    have hsplit :
        ((rows.filter (fun r =>
            (stKey r == k) || decide (stKey r ∈ ks))).map f).sum
          = ((rows.filter (fun r => stKey r == k)).map f).sum
            + ((rows.filter (fun r => decide (stKey r ∈ ks))).map f).sum := by
      apply sum_filter_or
      intro r hp hq
      have h1 : stKey r = k := by simpa using hp
      have h2 : stKey r ∈ ks := by simpa using hq
      exact hk (h1 ▸ h2)
    have hcongr : rows.filter (fun r => decide (stKey r ∈ k :: ks))
        = rows.filter (fun r => (stKey r == k) || decide (stKey r ∈ ks)) := by
      apply List.filter_congr
      intro r _
      by_cases h : stKey r = k
      · simp [h, List.mem_cons]
      · simp [h, List.mem_cons, beq_iff_eq]
    simp only [List.map_cons, List.sum_cons, ih hnd', hcongr, hsplit]

theorem filter_map_comm {α β : Type} (l : List α) (g : α → β) (p : β → Bool) :
    (l.map g).filter p = (l.filter (fun a => p (g a))).map g := by
  induction l with
  | nil => simp
  | cons a l ih =>
    by_cases h : p (g a) = true
    · simp [List.filter_cons, h, ih]
    · have h' : p (g a) = false := by simpa using h
      simp [List.filter_cons, h', ih]

theorem conservation_core {M : Type} [AddCommMonoid M]
    (f : SearchTermRow → M) (g : TargetAggregate → M)
    (hg : ∀ rows k, g (mkTargetAggregate rows k)
        = ((rows.filter (fun r => stKey r == k)).map f).sum)
    (rows : List SearchTermRow) (c : String) :
    ((((build_targeting_from_search_terms rows).rows.filter
        (fun a => a.campaign_name == c)).map g).sum : M)
      = ((rows.filter (fun r => r.campaign_name == c)).map f).sum := by
  by_cases hempty : rows.isEmpty
  · have : rows = [] := List.isEmpty_iff.mp hempty
    subst this
    simp [build_targeting_from_search_terms]
  · have hbuild : (build_targeting_from_search_terms rows).rows
        = (sortByB keyLeB (dropDuplicatesBy id (rows.map stKey))).map
            (mkTargetAggregate rows) := by
      unfold build_targeting_from_search_terms
      rw [if_neg hempty]
    rw [hbuild]
    set keys := sortByB keyLeB (dropDuplicatesBy id (rows.map stKey)) with hkeys
    have hnodupKeys : keys.Nodup := by
      have hperm : ∀ l : List (String × String),
          List.Perm (sortByB keyLeB l) l := by
        intro l
        induction l with
        | nil => simp [sortByB]
        | cons x xs ih =>
          exact (perm_insertSorted keyLeB x (sortByB keyLeB xs)).trans (ih.cons x)
      exact ((hperm _).nodup_iff).mpr (nodup_dropDupsBy_id _ _)
    have hmemKeys : ∀ r ∈ rows, stKey r ∈ keys := by
      intro r hr
      rw [hkeys, mem_sortByB]
      unfold dropDuplicatesBy
      rw [mem_dropDupsBy_id]
      exact ⟨List.mem_map_of_mem stKey hr, List.not_mem_nil _⟩
    have hfilter : (keys.map (mkTargetAggregate rows)).filter
        (fun a => a.campaign_name == c)
        = (keys.filter (fun k => k.1 == c)).map (mkTargetAggregate rows) := by
      rw [filter_map_comm]
      rfl
    rw [hfilter, List.map_map]
    have hmap : (keys.filter (fun k => k.1 == c)).map (g ∘ mkTargetAggregate rows)
        = (keys.filter (fun k => k.1 == c)).map
            (fun k => ((rows.filter (fun r => stKey r == k)).map f).sum) := by
      apply List.map_congr_left
      intro k _
      simp only [Function.comp_apply]
      exact hg rows k
    rw [hmap, sum_groups f (keys.filter (fun k => k.1 == c))
      (hnodupKeys.filter _) rows]
    congr 1
    congr 1
    apply List.filter_congr
    intro r hr
    have hrk : stKey r ∈ keys := hmemKeys r hr
    by_cases hc : r.campaign_name = c
    · have hrk' : (c, r.targeting) ∈ keys := by
        have hst : stKey r = (c, r.targeting) := by simp [stKey, hc]
        exact hst ▸ hrk
      simp [List.mem_filter, stKey, hc, hrk']
    · simp [List.mem_filter, stKey, hc]

theorem findHeaderRowAux_zero :
    ∀ (ls : List String) (i : Nat),
      (∀ l ∈ ls.take (10 - i), strContainsSub l CSV_HEADER_MARKER = false) →
      findHeaderRowAux ls i = 0 := by
  intro ls
  induction ls with
  | nil => intro i _; rfl
  | cons x xs ih =>
    intro i h
    unfold findHeaderRowAux
    by_cases hi : 10 ≤ i
    · simp [hi]
    · have hsucc : 10 - i = (10 - (i + 1)) + 1 := by omega
      have hx : strContainsSub x CSV_HEADER_MARKER = false := by
        apply h
        rw [hsucc, List.take_succ_cons]
        exact List.mem_cons_self _ _
      have hxs : ∀ l ∈ xs.take (10 - (i + 1)),
          strContainsSub l CSV_HEADER_MARKER = false := by
        intro l hl
        apply h
        rw [hsucc, List.take_succ_cons]
        exact List.mem_cons_of_mem _ hl
      simp [hi, hx, ih (i + 1) hxs]

/-! ### Claim theorems -/

/-- C6: deduplication is idempotent over self-concatenation — deduplicating the
concatenation of a search-term table with itself on (campaign_name, targeting,
search_term) plus start_date/end_date when those columns are present yields
exactly the same rows (keep-first, file-then-row order) as deduplicating the
single table once. -/
theorem claim_C6_dedup_idempotent (hasStart hasEnd : Bool)
    (rows : List SearchTermRow) :
    dedupSearchTerms hasStart hasEnd (rows ++ rows)
      = dedupSearchTerms hasStart hasEnd rows :=
  dropDuplicatesBy_self_append (dedupKey hasStart hasEnd) rows

/-- C7: aggregation conserves every summed metric — for each campaign, the sum
of spend (and impressions, clicks, sales, orders) over the TargetAggregate rows
the targeting builder produces for that campaign equals the corresponding sum
over the raw search-term rows of that campaign.  Exact equality over `Rat`,
which subsumes the claim's floating-point tolerance. -/
theorem claim_C7_aggregation_conservation (rows : List SearchTermRow) (c : String) :
    ((((build_targeting_from_search_terms rows).rows.filter
        (fun a => a.campaign_name == c)).map (fun a => a.spend)).sum
      = ((rows.filter (fun r => r.campaign_name == c)).map (fun r => r.spend)).sum)
    ∧ ((((build_targeting_from_search_terms rows).rows.filter
        (fun a => a.campaign_name == c)).map (fun a => a.impressions)).sum
      = ((rows.filter (fun r => r.campaign_name == c)).map (fun r => r.impressions)).sum)
    ∧ ((((build_targeting_from_search_terms rows).rows.filter
        (fun a => a.campaign_name == c)).map (fun a => a.clicks)).sum
      = ((rows.filter (fun r => r.campaign_name == c)).map (fun r => r.clicks)).sum)
    ∧ ((((build_targeting_from_search_terms rows).rows.filter
        (fun a => a.campaign_name == c)).map (fun a => a.sales)).sum
      = ((rows.filter (fun r => r.campaign_name == c)).map (fun r => r.sales)).sum)
    ∧ ((((build_targeting_from_search_terms rows).rows.filter
        (fun a => a.campaign_name == c)).map (fun a => a.orders)).sum
      = ((rows.filter (fun r => r.campaign_name == c)).map (fun r => r.orders)).sum) := by
  refine ⟨?_, ?_, ?_, ?_, ?_⟩ <;>
    exact conservation_core _ _ (fun rows k => rfl) rows c

/-- C3 counterexample: on empty input the targeting builder returns a frame
with no columns at all (`pd.DataFrame()`), not an empty-but-correctly-columned
table, and the campaign summary does not accept that output — its
`groupby("campaign_name")` fails on the missing column. -/
theorem claim_C3_counterexample :
    (build_targeting_from_search_terms []).cols = []
    ∧ (generate_campaign_summary (build_targeting_from_search_terms [])).isOk
        = false := by
  exact ⟨rfl, rfl⟩

/-- C3 as amended: ASIN performance, keyword performance, search-term analysis,
the bid recommender and KDP reconciliation each return an empty, flag-free,
correctly-typed result on an empty input table without raising; the targeting
builder, however, returns a completely column-less empty frame on empty input,
and the campaign summary rejects that frame (KeyError on `campaign_name`)
instead of accepting it. -/
theorem claim_C3_empty_input (cfg : Config) (summary : List CampaignAggregate)
    (ws we : Date) (orders : Option (List KdpOrderRow)) (oc : Option Config)
    (b : Bool) :
    build_targeting_from_search_terms [] = ⟨[], []⟩
    ∧ generate_campaign_summary ⟨[], []⟩
        = Except.error ("KeyError: campaign_name")
    ∧ analyze_asin_targets cfg ⟨[], []⟩ = ⟨[], [], []⟩
    ∧ analyze_keywords cfg ⟨[], []⟩ = ⟨[], []⟩
    ∧ analyze_search_terms cfg [] = ⟨[], [], [], none⟩
    ∧ recommend_bids cfg ⟨[], []⟩ = ⟨[], []⟩
    ∧ reconcile_kdp_sales ⟨[], b⟩ summary ws we orders oc
        = ⟨("daily"), ⟨0, 0, 0, 0, 0, 0⟩, []⟩ := by
  exact ⟨rfl, rfl, rfl, rfl, rfl, rfl, rfl⟩

/-- C4 counterexample: a royalty table whose net units sum to −5 (refunds
exceeding sales) with 10 ad-attributed orders yields attribution_gap = −15 and
attribution_gap_pct = 0, although kdp_units = −5 ≠ 0 and the claimed formula
gap / kdp_units × 100 evaluates to 300 there. -/
theorem claim_C4_counterexample :
    ((reconcile_kdp_sales
        ⟨[⟨some ⟨2024, 3, 5⟩, "T", "A", "ebook", -5, -5, 0⟩], true⟩
        [⟨"c", 0, 0, 0, 0, 10, 0, 0, none, none⟩]
        ⟨2024, 3, 4⟩ ⟨2024, 3, 10⟩ none none).totals.kdp_units = -5)
    ∧ ((reconcile_kdp_sales
        ⟨[⟨some ⟨2024, 3, 5⟩, "T", "A", "ebook", -5, -5, 0⟩], true⟩
        [⟨"c", 0, 0, 0, 0, 10, 0, 0, none, none⟩]
        ⟨2024, 3, 4⟩ ⟨2024, 3, 10⟩ none none).totals.attribution_gap = -15)
    ∧ ((reconcile_kdp_sales
        ⟨[⟨some ⟨2024, 3, 5⟩, "T", "A", "ebook", -5, -5, 0⟩], true⟩
        [⟨"c", 0, 0, 0, 0, 10, 0, 0, none, none⟩]
        ⟨2024, 3, 4⟩ ⟨2024, 3, 10⟩ none none).totals.attribution_gap_pct = 0)
    ∧ (((-15 : Rat) / (-5 : Rat) * 100) = 300)
    ∧ ((0 : Rat) ≠ 300) := by
  refine ⟨rfl, rfl, rfl, by norm_num, by norm_num⟩

/-- C4 as amended: the reconciliation totals always satisfy
attribution_gap = kdp_units − ad_attributed_orders, and
attribution_gap_pct = attribution_gap / kdp_units × 100 when kdp_units > 0 and
0 when kdp_units ≤ 0 (in particular when kdp_units = 0). -/
theorem claim_C4_attribution_gap (kdp : KdpFrame) (summary : List CampaignAggregate)
    (ws we : Date) (orders : Option (List KdpOrderRow)) (oc : Option Config) :
    ((reconcile_kdp_sales kdp summary ws we orders oc).totals.attribution_gap
        = (reconcile_kdp_sales kdp summary ws we orders oc).totals.kdp_units
          - ((reconcile_kdp_sales kdp summary ws we orders oc).totals.ad_attributed_orders : Int))
    ∧ ((reconcile_kdp_sales kdp summary ws we orders oc).totals.attribution_gap_pct
        = if 0 < (reconcile_kdp_sales kdp summary ws we orders oc).totals.kdp_units
          then ((reconcile_kdp_sales kdp summary ws we orders oc).totals.attribution_gap : Rat)
               / ((reconcile_kdp_sales kdp summary ws we orders oc).totals.kdp_units : Rat)
               * 100
          else 0) := by
  unfold reconcile_kdp_sales
  split
  · exact ⟨by decide, by decide⟩
  · exact ⟨rfl, rfl⟩

/-- C5 counterexample: with blended_royalty configured as −2 (≤ 0) and
target_acos as 0.5, a row with 10 clicks and 5 orders gets
max_bid = −2 × 0.5 ÷ 0.5 = −2 — the configured non-positive blended_royalty is
used as-is, not replaced by the claimed default 5.00 (which would give 5). -/
theorem claim_C5_counterexample :
    (maxProfitableBid
        ⟨⟨some ((1 : Rat) / 2), some (-2), none, none, none⟩, [], []⟩
        ⟨"c", "k", 100, 10, 1, 1, 5, 0, 0, none, "k", none⟩ = some (-2))
    ∧ ((-2 : Rat) ≠ 5 * ((1 : Rat) / 2) / ((1 : Rat) / 2)) := by
  constructor
  · unfold maxProfitableBid conversionRate effBlendedRoyalty effTargetAcos
    norm_num
  · norm_num

/-- C5 as amended: per row, conversion_rate = orders/clicks (0 when
clicks = 0); max_bid is undefined exactly when conversion_rate is 0 and
otherwise equals blended_royalty × conversion_rate ÷ target_acos, where
target_acos falls back to the default 0.50 when unset or ≤ 0 but
blended_royalty falls back to its default 5.00 only when unset — a configured
non-positive blended_royalty is used as-is. -/
theorem claim_C5_max_bid (cfg : Config) (r : TargetAggregate) :
    (conversionRate r.clicks r.orders
        = if r.clicks = 0 then 0 else (r.orders : Rat) / (r.clicks : Rat))
    ∧ (maxProfitableBid cfg r
        = if conversionRate r.clicks r.orders = 0 then none
          else some
            ((match cfg.settings.blended_royalty with
              | some b => b
              | none => 5)
             * conversionRate r.clicks r.orders
             / (match cfg.settings.target_acos with
                | some a => if a ≤ 0 then (1 : Rat) / 2 else a
                | none => (1 : Rat) / 2))) := by
  have hnn : 0 ≤ conversionRate r.clicks r.orders := by
    unfold conversionRate
    split
    · positivity
    · exact le_refl 0
  constructor
  · unfold conversionRate
    rcases Nat.eq_zero_or_pos r.clicks with h | h
    · simp [h]
    · have : r.clicks ≠ 0 := Nat.pos_iff_ne_zero.mp h
      simp [h, this]
  · unfold maxProfitableBid
    by_cases hz : conversionRate r.clicks r.orders = 0
    · have : ¬ (conversionRate r.clicks r.orders > 0) := by
        rw [hz]; exact lt_irrefl 0
      simp [this, hz]
    · have hpos : conversionRate r.clicks r.orders > 0 :=
        lt_of_le_of_ne hnn (Ne.symm hz)
      rw [if_pos hpos, if_neg hz]
      congr 1
      have hb : effBlendedRoyalty cfg
          = (match cfg.settings.blended_royalty with
             | some b => b
             | none => (5 : Rat)) := by
        unfold effBlendedRoyalty
        cases cfg.settings.blended_royalty <;> rfl
      have ha : effTargetAcos cfg
          = (match cfg.settings.target_acos with
             | some a => if a ≤ 0 then (1 : Rat) / 2 else a
             | none => (1 : Rat) / 2) := by
        unfold effTargetAcos
        cases cfg.settings.target_acos with
        | none => simp
        | some a => rfl
      rw [hb, ha]

/-- C2 counterexample: a CSV none of whose lines contains the marker
"Campaign Name", and whose lines all carry the same field count (so
`read_csv` has nothing to choke on), is not rejected — the header index
falls back to 0 and the file parses silently with its first (banner) line
treated as the header. -/
theorem claim_C2_counterexample :
    (["Sponsored Products report,week 10,US,retail,books",
      "c1,kw,term,1,2", "c2,kw2,term2,3,4"].all
        (fun l => !(strContainsSub l CSV_HEADER_MARKER)) = true)
    ∧ find_header_row ["Sponsored Products report,week 10,US,retail,books",
        "c1,kw,term,1,2", "c2,kw2,term2,3,4"] = 0
    ∧ (load_search_term_csv ["Sponsored Products report,week 10,US,retail,books",
        "c1,kw,term,1,2", "c2,kw2,term2,3,4"]).isOk = true := by
  refine ⟨by decide, rfl, by decide⟩

/-- C2 as amended: when none of the first 10 lines of a non-empty CSV export
contains the marker column name, the normalizer never raises the explicit
missing-marker error — the header-row index falls back to 0, and whenever no
later line has more fields than that first line (in particular for files
whose lines all have the same field count) the file is parsed silently with
its first line treated as the header row. -/
theorem claim_C2_header_fallback (lines : List String) (hne : lines ≠ [])
    (hnomark : ∀ l ∈ lines.take 10, strContainsSub l CSV_HEADER_MARKER = false)
    (hwidth : ∀ l ∈ lines.drop 1,
        (splitComma l).length ≤ (splitComma (lines.headD (""))).length) :
    find_header_row lines = 0
    ∧ load_search_term_csv lines
        = Except.ok ⟨splitComma (lines.headD ("")),
                     (lines.drop 1).map (fun l => splitComma l)⟩ := by
  have hfind : find_header_row lines = 0 := by
    apply findHeaderRowAux_zero
    simpa using hnomark
  refine ⟨hfind, ?_⟩
  obtain ⟨x, xs, rfl⟩ := List.exists_cons_of_ne_nil hne
  have hany : (xs.any (fun l =>
      decide ((splitComma l).length > ((splitComma x).length)))) = false := by
    rw [List.any_eq_false]
    intro l hl
    simp only [decide_eq_true_eq, not_lt]
    simpa using hwidth l (by simpa using hl)
  unfold load_search_term_csv
  rw [hfind]
  show (if (xs.any (fun l =>
      decide ((splitComma l).length > ((splitComma x).length)))) = true
    then _ else _) = _
  rw [hany]
  rfl

/-- C2 witness: the header-fallback theorem at a concrete marker-free file
whose three lines all have two fields. -/
theorem claim_C2_witness :
    find_header_row ["banner line,export", "a,b", "c,d"] = 0
    ∧ load_search_term_csv ["banner line,export", "a,b", "c,d"]
        = Except.ok ⟨splitComma ((["banner line,export", "a,b", "c,d"] :
              List String).headD ("")),
            ((["banner line,export", "a,b", "c,d"] : List String).drop 1).map
              (fun l => splitComma l)⟩ :=
  claim_C2_header_fallback _ (by decide) (by decide) (by decide)

/-- C8: the drift detector emits an exact_match_drift warning for a row exactly
when the row's match type is exact and the normalized (stripped) targeting
string differs case-sensitively from the normalized search term, and emits no
drift flag of any kind when the match type is neither exact nor broad (in
particular for phrase and for unknown match types). -/
theorem claim_C8_exact_drift (r : SearchTermRow) :
    ((∃ f ∈ driftFlagsForRow r,
        f.dtype = ("exact_match_drift") ∧ f.severity = Severity.warning)
      ↔ (r.match_type.trim.toLower = ("exact")
          ∧ r.targeting.trim ≠ r.search_term.trim))
    ∧ (r.match_type.trim.toLower ≠ ("exact") →
        r.match_type.trim.toLower ≠ ("broad") →
        driftFlagsForRow r = []) := by
  unfold driftFlagsForRow
  by_cases hmt : r.match_type.trim.toLower = ("exact") <;>
    by_cases hb : r.match_type.trim.toLower = ("broad") <;>
      by_cases ht : r.targeting.trim = r.search_term.trim <;>
        simp_all [List.mem_append]

/-- C9: per targeting row the bid recommender emits at most one of the four
flags, in priority order — no_data only on zero clicks and zero impressions,
no_conversions only on nonzero clicks with zero orders (each short-circuiting
the later checks), bid_above_profitable and bid_below_range only past both
short-circuits, and bid_below_range never together with bid_above_profitable. -/
theorem claim_C9_bid_flag_priority (cfg : Config) (r : TargetAggregate) :
    ((bidFlagsForRow cfg r).length ≤ 1)
    ∧ (∀ f ∈ bidFlagsForRow cfg r, f.btype = ("no_data") →
        r.clicks = 0 ∧ r.impressions = 0)
    ∧ (∀ f ∈ bidFlagsForRow cfg r, f.btype = ("no_conversions") →
        r.clicks ≠ 0 ∧ r.orders = 0)
    ∧ (∀ f ∈ bidFlagsForRow cfg r, f.btype = ("bid_above_profitable") →
        r.clicks ≠ 0 ∧ r.orders ≠ 0)
    ∧ (∀ f ∈ bidFlagsForRow cfg r, f.btype = ("bid_below_range") →
        r.clicks ≠ 0 ∧ r.orders ≠ 0
          ∧ ∀ g ∈ bidFlagsForRow cfg r, g.btype ≠ ("bid_above_profitable")) := by
  unfold bidFlagsForRow
  by_cases h1 : (r.clicks == 0) = true
  · by_cases h2 : (r.impressions == 0) = true <;> simp_all
  · by_cases h3 : (r.orders == 0) = true
    · simp_all
    · cases hbid : r.bid with
      | none => simp_all
      | some cb =>
        cases hmb : maxProfitableBid cfg r with
        | none => simp_all
        | some mb =>
          by_cases h4 : mb < cb
          · simp_all
          · by_cases h5 : cb < mb * ((1 : Rat) / 2)
            · simp only [if_neg h4, if_pos h5]
              simp_all
            · simp only [if_neg h4, if_neg h5]
              simp_all

/-- C9 witness: the priority theorem applied to a concrete row with zero
clicks and zero impressions. -/
theorem claim_C9_witness :
    (bidFlagsForRow ⟨⟨none, none, none, none, none⟩, [], []⟩
      ⟨"c", "k", 0, 0, 0, 0, 0, 0, 0, none, "k", none⟩).length ≤ 1 :=
  (claim_C9_bid_flag_priority ⟨⟨none, none, none, none, none⟩, [], []⟩
    ⟨"c", "k", 0, 0, 0, 0, 0, 0, 0, none, "k", none⟩).1

/-- C1 counterexample: an order table whose dates are all month-firsts, with a
Book 1 ASIN and a Book 2 ASIN both ordered on 2024-03-01, does NOT make
detection skip — the detector resets its daily mask to all-True in that case
and reports the paired purchase. -/
theorem claim_C1_counterexample :
    (([⟨some ⟨2024, 3, 1⟩, "Alpha", "B0AAA11111", "ebook", 1, 0⟩,
       ⟨some ⟨2024, 3, 1⟩, "Beta", "B0BBB22222", "ebook", 1, 0⟩] :
        List KdpOrderRow).all
      (fun r =>
        match r.date with
        | some dd => dd.day == 1
        | none => true) = true)
    ∧ detect_paired_purchases
        (some [⟨some ⟨2024, 3, 1⟩, "Alpha", "B0AAA11111", "ebook", 1, 0⟩,
               ⟨some ⟨2024, 3, 1⟩, "Beta", "B0BBB22222", "ebook", 1, 0⟩])
        (some ⟨⟨none, none, none, none, none⟩, [],
               [("book_1", ⟨"B0AAA11111", "", "Alpha"⟩),
                ("book_2", ⟨"B0BBB22222", "", "Beta"⟩)]⟩) ≠ [] := by
  exact ⟨by decide, by decide⟩

/-- C1 as amended: when every non-null date of the order table is the first
day of its month, detection is NOT skipped — the daily mask is reset to
all-True, every dated row is retained, and any month-first date carrying
orders for both a Book 1 ASIN and a Book 2 ASIN is reported as a paired
purchase on that date. -/
theorem claim_C1_month_start_detection (rows : List KdpOrderRow) (c : Config)
    (d : Date)
    (hall : ∀ r ∈ rows, ∀ dd : Date, r.date = some dd → dd.day = 1)
    (h1 : ∃ r ∈ rows, r.date = some d ∧ r.asin ∈ book1Asins c)
    (h2 : ∃ r ∈ rows, r.date = some d ∧ r.asin ∈ book2Asins c) :
    ∃ p ∈ detect_paired_purchases (some rows) (some c), p.date = d := by
  obtain ⟨r1, hr1mem, hr1d, hr1a⟩ := h1
  obtain ⟨r2, hr2mem, hr2d, hr2a⟩ := h2
  have hne : rows.isEmpty = false := by
    cases rows
    · cases hr1mem
    · rfl
  have hb1 : (book1Asins c).isEmpty = false := by
    cases hb : book1Asins c
    · rw [hb] at hr1a; cases hr1a
    · rfl
  have hb2 : (book2Asins c).isEmpty = false := by
    cases hb : book2Asins c
    · rw [hb] at hr2a; cases hr2a
    · rfl
  have hr1W : r1 ∈ rows.filter (fun r => r.date.isSome) :=
    List.mem_filter.mpr ⟨hr1mem, by rw [hr1d]; rfl⟩
  have hr2W : r2 ∈ rows.filter (fun r => r.date.isSome) :=
    List.mem_filter.mpr ⟨hr2mem, by rw [hr2d]; rfl⟩
  have hWne : (rows.filter (fun r => r.date.isSome)).isEmpty = false := by
    cases hWc : rows.filter (fun r => r.date.isSome)
    · rw [hWc] at hr1W; cases hr1W
    · rfl
  have hWall : ((rows.filter (fun r => r.date.isSome)).all (fun r =>
      match r.date with
      | some dd => dd.day == 1
      | none => true)) = true := by
    rw [List.all_eq_true]
    intro r hr
    have hrmem : r ∈ rows := (List.mem_filter.mp hr).1
    cases hrd : r.date with
    | none => simp [hrd]
    | some dd =>
      have := hall r hrmem dd hrd
      simp [hrd, this]
  have hdmem : d ∈ sortByB dateLeB (dropDuplicatesBy id
      ((rows.filter (fun r => r.date.isSome)).filterMap (fun r => r.date))) := by
    rw [mem_sortByB]
    unfold dropDuplicatesBy
    rw [mem_dropDupsBy_id]
    exact ⟨List.mem_filterMap.mpr ⟨r1, hr1W, hr1d⟩, List.not_mem_nil _⟩
  have hg1 : r1 ∈ (rows.filter (fun r => r.date.isSome)).filter
      (fun r => r.date == some d) := by
    refine List.mem_filter.mpr ⟨hr1W, ?_⟩
    rw [hr1d]
    simp
  have hg2 : r2 ∈ (rows.filter (fun r => r.date.isSome)).filter
      (fun r => r.date == some d) := by
    refine List.mem_filter.mpr ⟨hr2W, ?_⟩
    rw [hr2d]
    simp
  have hany1 : (((rows.filter (fun r => r.date.isSome)).filter
      (fun r => r.date == some d)).map (fun r => r.asin)).any
        (fun a => (book1Asins c).contains a) = true := by
    rw [List.any_eq_true]
    exact ⟨r1.asin, List.mem_map_of_mem _ hg1, by simpa using hr1a⟩
  have hany2 : (((rows.filter (fun r => r.date.isSome)).filter
      (fun r => r.date == some d)).map (fun r => r.asin)).any
        (fun a => (book2Asins c).contains a) = true := by
    rw [List.any_eq_true]
    exact ⟨r2.asin, List.mem_map_of_mem _ hg2, by simpa using hr2a⟩
  have hpd : pairedForDate (rows.filter (fun r => r.date.isSome))
      (book1Asins c) (book2Asins c) d
      = [⟨d, joinSep (" + ") (sortByB strLeB
          (detailParts ((rows.filter (fun r => r.date.isSome)).filter
              (fun r => r.date == some d))
            (book1Asins c) (book2Asins c)))⟩] := by
    unfold pairedForDate
    simp only [hany1, hany2, Bool.and_self, if_true]
  have hdetect : detect_paired_purchases (some rows) (some c)
      = sortByB (fun p q => dateLeB p.date q.date)
          (((sortByB dateLeB (dropDuplicatesBy id
              ((rows.filter (fun r => r.date.isSome)).filterMap
                (fun r => r.date)))).map
            (pairedForDate (rows.filter (fun r => r.date.isSome))
              (book1Asins c) (book2Asins c))).flatten) := by
    unfold detect_paired_purchases
    simp only [hne, hb1, hb2, hWne, hWall, Bool.or_self, Bool.false_eq_true,
      if_false, if_true]
  rw [hdetect]
  refine ⟨⟨d, joinSep (" + ") (sortByB strLeB
      (detailParts ((rows.filter (fun r => r.date.isSome)).filter
          (fun r => r.date == some d))
        (book1Asins c) (book2Asins c)))⟩, ?_, rfl⟩
  rw [mem_sortByB]
  apply List.mem_flatten.mpr
  refine ⟨pairedForDate (rows.filter (fun r => r.date.isSome))
      (book1Asins c) (book2Asins c) d, List.mem_map_of_mem _ hdmem, ?_⟩
  rw [hpd]
  exact List.mem_singleton_self _

/-- C1 witness: the amended theorem at the concrete all-month-start table with
both books ordered on 2024-03-01. -/
theorem claim_C1_witness :
    ∃ p ∈ detect_paired_purchases
        (some [⟨some ⟨2024, 3, 1⟩, "Alpha", "B0AAA11111", "ebook", 1, 0⟩,
               ⟨some ⟨2024, 3, 1⟩, "Beta", "B0BBB22222", "ebook", 1, 0⟩])
        (some ⟨⟨none, none, none, none, none⟩, [],
               [("book_1", ⟨"B0AAA11111", "", "Alpha"⟩),
                ("book_2", ⟨"B0BBB22222", "", "Beta"⟩)]⟩),
      p.date = ⟨2024, 3, 1⟩ :=
  claim_C1_month_start_detection _ _ _
    (by decide)
    ⟨⟨some ⟨2024, 3, 1⟩, "Alpha", "B0AAA11111", "ebook", 1, 0⟩,
      by decide, rfl, by decide⟩
    ⟨⟨some ⟨2024, 3, 1⟩, "Beta", "B0BBB22222", "ebook", 1, 0⟩,
      by decide, rfl, by decide⟩

/-- C10: when the order table has at least one row dated on a day other than
the 1st of a month, every first-of-month row is excluded from detection, so no
reported paired purchase is ever dated on a month's first day. -/
theorem claim_C10_month_start_excluded (rows : List KdpOrderRow) (c : Config)
    (h : ∃ r ∈ rows, ∃ dd : Date, r.date = some dd ∧ dd.day ≠ 1) :
    ∀ p ∈ detect_paired_purchases (some rows) (some c), p.date.day ≠ 1 := by
  obtain ⟨r0, hr0mem, dd0, hr0d, hr0day⟩ := h
  have hne : rows.isEmpty = false := by
    cases rows
    · cases hr0mem
    · rfl
  have hr0W : r0 ∈ rows.filter (fun r => r.date.isSome) :=
    List.mem_filter.mpr ⟨hr0mem, by rw [hr0d]; rfl⟩
  have hWne : (rows.filter (fun r => r.date.isSome)).isEmpty = false := by
    cases hWc : rows.filter (fun r => r.date.isSome)
    · rw [hWc] at hr0W; cases hr0W
    · rfl
  have hWall : ((rows.filter (fun r => r.date.isSome)).all (fun r =>
      match r.date with
      | some dd => dd.day == 1
      | none => true)) = false := by
    rw [List.all_eq_false]
    refine ⟨r0, hr0W, ?_⟩
    simp [hr0d, hr0day]
  have hr0K : r0 ∈ (rows.filter (fun r => r.date.isSome)).filter (fun r =>
      match r.date with
      | some dd => dd.day != 1
      | none => false) := by
    refine List.mem_filter.mpr ⟨hr0W, ?_⟩
    simp [hr0d, hr0day]
  have hKne : ((rows.filter (fun r => r.date.isSome)).filter (fun r =>
      match r.date with
      | some dd => dd.day != 1
      | none => false)).isEmpty = false := by
    cases hKc : (rows.filter (fun r => r.date.isSome)).filter (fun r =>
        match r.date with
        | some dd => dd.day != 1
        | none => false)
    · rw [hKc] at hr0K; cases hr0K
    · rfl
  intro p hp
  by_cases hb : ((book1Asins c).isEmpty || (book2Asins c).isEmpty) = true
  · have : detect_paired_purchases (some rows) (some c) = [] := by
      unfold detect_paired_purchases
      simp only [hne, Bool.false_eq_true, if_false, hb, if_true]
    rw [this] at hp
    cases hp
  · have hdetect : detect_paired_purchases (some rows) (some c)
        = sortByB (fun p q => dateLeB p.date q.date)
            (((sortByB dateLeB (dropDuplicatesBy id
                (((rows.filter (fun r => r.date.isSome)).filter (fun r =>
                    match r.date with
                    | some dd => dd.day != 1
                    | none => false)).filterMap (fun r => r.date)))).map
              (pairedForDate ((rows.filter (fun r => r.date.isSome)).filter
                  (fun r =>
                    match r.date with
                    | some dd => dd.day != 1
                    | none => false))
                (book1Asins c) (book2Asins c))).flatten) := by
      unfold detect_paired_purchases
      simp only [hne, hb, hWne, hWall, hKne, Bool.false_eq_true, if_false]
    rw [hdetect, mem_sortByB] at hp
    obtain ⟨l, hl, hpl⟩ := List.mem_flatten.mp hp
    obtain ⟨dd, hdd, rfl⟩ := List.mem_map.mp hl
    have hdd' : dd ∈ ((rows.filter (fun r => r.date.isSome)).filter (fun r =>
        match r.date with
        | some dd => dd.day != 1
        | none => false)).filterMap (fun r => r.date) := by
      rw [mem_sortByB] at hdd
      unfold dropDuplicatesBy at hdd
      exact ((mem_dropDupsBy_id dd _ _).mp hdd).1
    obtain ⟨r, hrK, hrd⟩ := List.mem_filterMap.mp hdd'
    have hday : dd.day ≠ 1 := by
      have hpassed := (List.mem_filter.mp hrK).2
      rw [hrd] at hpassed
      simpa using hpassed
    have hpdate : p.date = dd := by
      simp only [pairedForDate] at hpl
      split at hpl
      · rw [List.mem_singleton.mp hpl]
      · cases hpl
    rw [hpdate]
    exact hday

/-- C10 witness: the exclusion theorem at a concrete table holding a 2024-03-05
paired purchase plus a 2024-03-01 row. -/
theorem claim_C10_witness :
    ((detect_paired_purchases
        (some [⟨some ⟨2024, 3, 5⟩, "Alpha", "B0AAA11111", "ebook", 1, 0⟩,
               ⟨some ⟨2024, 3, 5⟩, "Beta", "B0BBB22222", "ebook", 1, 0⟩,
               ⟨some ⟨2024, 3, 1⟩, "Alpha", "B0AAA11111", "ebook", 1, 0⟩])
        (some ⟨⟨none, none, none, none, none⟩, [],
               [("book_1", ⟨"B0AAA11111", "", "Alpha"⟩),
                ("book_2", ⟨"B0BBB22222", "", "Beta"⟩)]⟩)).all
      (fun p => p.date.day != 1)) = true := by
  rw [List.all_eq_true]
  intro p hp
  simpa using claim_C10_month_start_excluded _ _
    ⟨⟨some ⟨2024, 3, 5⟩, "Alpha", "B0AAA11111", "ebook", 1, 0⟩,
      by decide, ⟨2024, 3, 5⟩, rfl, by decide⟩ p hp

end AdsAnalytics
